import Mathlib

/-!
Shallow embedding of the video compliance pipeline of `towa-backend`
(`src/routers/twelvelabs_router.py`): the requirements validator, the
closest-aspect-ratio resolver, the FFmpeg command builder of the transform
executor, and the pipeline orchestrator `process_and_validate_video`.

Machine reals (Python floats) are modelled by `ℚ`; Python `int()` truncation
on the positive values arising here is `Int.floor`; code that raises is
modelled with `Option`/`Except`.  Message strings render numbers with
`toString`, abstracting Python's decimal formatting; no property below
depends on the rendering of a number inside a message.
-/

set_option autoImplicit false

/- Batteries marks the `Rat` field operations irreducible; the concrete
evaluations below need them to reduce. -/
set_option allowUnsafeReducibility true in
attribute [semireducible] Rat.mul Rat.add Rat.sub Rat.inv

namespace Towa

/-- Video metadata as produced by `get_video_metadata` (probe output). -/
structure Metadata where
  width : ℕ
  height : ℕ
  duration : ℚ
  file_size : ℕ
  video_codec : String
  audio_codec : String
  aspect_ratio : String
deriving Repr, DecidableEq

/-- One entry of an issues list: `{"type": ..., "message": ..., "fixable": ...}`. -/
structure ComplianceIssue where
  type : String
  message : String
  fixable : Bool
deriving Repr, DecidableEq

/-- Return value of `validate_video_requirements`. -/
structure ValidationResult where
  compliant : Bool
  issues : List ComplianceIssue
deriving Repr, DecidableEq

/-- `VALID_ASPECT_RATIOS`, an insertion-ordered dict `ratio string ↦ (w, h)`. -/
def VALID_ASPECT_RATIOS : List (String × ℕ × ℕ) :=
  [("1:1", 1, 1), ("4:3", 4, 3), ("4:5", 4, 5), ("5:4", 5, 4),
   ("16:9", 16, 9), ("9:16", 9, 16), ("17:9", 17, 9)]

def MIN_RESOLUTION : ℕ × ℕ := (360, 360)

def MAX_RESOLUTION : ℕ × ℕ := (3840, 2160)

/-- `MIN_DURATION = 4` (a Python int, compared against a float duration). -/
def MIN_DURATION : ℚ := 4

def MAX_DURATION : ℚ := 7200

def MAX_FILE_SIZE : ℕ := 2 * 1024 * 1024 * 1024

/-- Key membership test of the `VALID_ASPECT_RATIOS` dict. -/
def isValidAspect (a : String) : Bool :=
  (VALID_ASPECT_RATIOS.map Prod.fst).contains a

/-- The aspect-ratio string `get_video_metadata` computes (lines 163-172):
the gcd-reduced `W:H` when both dimensions are positive, else "unknown". -/
def computeAspectRatio (width height : ℕ) : String :=
  if 0 < width ∧ 0 < height then
    toString (width / Nat.gcd width height) ++ ":"
      ++ toString (height / Nat.gcd width height)
  else "unknown"

/-- `validate_video_requirements(metadata)`: six checks in fixed order, each
appending one issue when it fails; `compliant` iff the list stays empty. -/
def validate_video_requirements (m : Metadata) : ValidationResult :=
  let issues : List ComplianceIssue := []
  let issues :=
    if m.width < MIN_RESOLUTION.1 || m.height < MIN_RESOLUTION.2 then
      issues ++ [⟨"resolution_too_low",
        "Resolution " ++ toString m.width ++ "x" ++ toString m.height ++
          " below minimum 360x360", true⟩]
    else issues
  let issues :=
    if m.width > MAX_RESOLUTION.1 || m.height > MAX_RESOLUTION.2 then
      issues ++ [⟨"resolution_too_high",
        "Resolution " ++ toString m.width ++ "x" ++ toString m.height ++
          " exceeds maximum 3840x2160", true⟩]
    else issues
  let issues :=
    if !isValidAspect m.aspect_ratio then
      issues ++ [⟨"invalid_aspect_ratio",
        "Aspect ratio " ++ m.aspect_ratio ++ " not in allowed list", true⟩]
    else issues
  let issues :=
    if m.duration < MIN_DURATION then
      issues ++ [⟨"duration_too_short",
        "Duration " ++ toString m.duration ++ " below minimum 4s", false⟩]
    else issues
  let issues :=
    if m.duration > MAX_DURATION then
      issues ++ [⟨"duration_too_long",
        "Duration " ++ toString m.duration ++ " exceeds maximum 7200s", true⟩]
    else issues
  let issues :=
    if m.file_size > MAX_FILE_SIZE then
      issues ++ [⟨"file_too_large",
        "File size " ++ toString m.file_size ++ " exceeds maximum 2GB", false⟩]
    else issues
  ⟨issues.length == 0, issues⟩

/-- One step of the best-match loop of `find_closest_aspect_ratio`: keep the
entry with strictly smaller `|current_ratio - w/h|` (first encountered wins
ties), carrying the best difference alongside. -/
def qabs (a : ℚ) : ℚ := if a < 0 then -a else a

def bestStep (current : ℚ) (acc : Option ((String × ℕ × ℕ) × ℚ))
    (e : String × ℕ × ℕ) : Option ((String × ℕ × ℕ) × ℚ) :=
  let target : ℚ := (e.2.1 : ℚ) / (e.2.2 : ℚ)
  let diff := qabs (current - target)
  match acc with
  | none => some (e, diff)
  | some (b, bd) => if diff < bd then some (e, diff) else some (b, bd)

/-- Python `max` on two values (kernel-computable form). -/
def qmax (a b : ℚ) : ℚ := if a ≤ b then b else a

/-- Python `min` on two values (kernel-computable form). -/
def qmin (a b : ℚ) : ℚ := if a ≤ b then a else b

/-- Python `int()` on the nonnegative rationals arising here: truncation,
which for nonnegative values is the floor `num / den`. -/
def pyInt (q : ℚ) : ℕ := q.num.toNat / q.den

/-- The scale computation of `find_closest_aspect_ratio` (and, inlined, of the
orchestrator's valid-ratio branch): scale `(ratio_w, ratio_h)` up to the
minimum resolution, clamp to the maximum, truncate with `int()`.  No
even-rounding here: the orchestrator's inline copy (lines 544-555) stops at
this point. -/
def scaleTargetRaw (ratio_w ratio_h : ℕ) : ℕ × ℕ :=
  let s1 : ℚ := qmax (qmax ((MIN_RESOLUTION.1 : ℚ) / (ratio_w : ℚ))
    ((MIN_RESOLUTION.2 : ℚ) / (ratio_h : ℚ))) 1
  let s : ℚ := qmin (qmin s1 ((MAX_RESOLUTION.1 : ℚ) / (ratio_w : ℚ)))
    ((MAX_RESOLUTION.2 : ℚ) / (ratio_h : ℚ))
  (pyInt ((ratio_w : ℚ) * s), pyInt ((ratio_h : ℚ) * s))

/-- `x - (x % 2)`: round down to the nearest even integer. -/
def evenDown (x : ℕ) : ℕ := x - x % 2

/-- `find_closest_aspect_ratio(width, height)`.  `width / height` raises
`ZeroDivisionError` in the source when `height = 0`; that failure is the
`none` case.  Otherwise: pick the allowed ratio minimising the absolute
difference of quotients, derive the target by `scaleTargetRaw`, and round
each dimension down to even. -/
def find_closest_aspect_ratio (width height : ℕ) : Option (String × ℕ × ℕ) :=
  if height = 0 then none
  else
    match VALID_ASPECT_RATIOS.foldl
        (bestStep ((width : ℚ) / (height : ℚ))) none with
    | none => none
    | some (e, _) =>
      some (e.1, evenDown (scaleTargetRaw e.2.1 e.2.2).1,
        evenDown (scaleTargetRaw e.2.1 e.2.2).2)

/-- The `transformations` dict accepted by `transform_video_with_ffmpeg`: one
optional field per key the function (and its docstring) recognises.  A `none`
field is an absent key. -/
structure Transformations where
  target_resolution : Option (ℕ × ℕ)
  target_aspect_ratio : Option String
  max_duration : Option ℕ
  re_encode : Option Bool
deriving Repr, DecidableEq

/-- The argument list `transform_video_with_ffmpeg` hands to the transcoder
(lines 338-374): fixed codec and quality arguments, `-t` only when
`max_duration` is a key, and the scale-then-pad filter when
`target_resolution` or `target_aspect_ratio` is a key, the resolution
defaulting to 1920x1080. -/
def build_ffmpeg_cmd (input_path output_path : String)
    (transformations : Transformations) : List String :=
  let cmd := ["ffmpeg", "-i", input_path, "-y"]
  let cmd := cmd ++ ["-c:v", "libx264", "-preset", "medium", "-crf", "23"]
  let cmd := cmd ++ ["-c:a", "aac", "-b:a", "128k"]
  let cmd :=
    match transformations.max_duration with
    | some max_dur => cmd ++ ["-t", toString max_dur]
    | none => cmd
  let cmd :=
    if transformations.target_resolution.isSome
        || transformations.target_aspect_ratio.isSome then
      let tr := transformations.target_resolution.getD (1920, 1080)
      let scale_filter := "scale=" ++ toString tr.1 ++ ":" ++ toString tr.2 ++
        ":force_original_aspect_ratio=decrease"
      let pad_filter := "pad=" ++ toString tr.1 ++ ":" ++ toString tr.2 ++
        ":(ow-iw)/2:(oh-ih)/2:black"
      cmd ++ ["-vf", scale_filter ++ "," ++ pad_filter]
    else cmd
  cmd ++ [output_path]

/-- Outcome of `fetch_video_blob_from_storage` as the orchestrator's first
step observes it: `NotImplementedError`, any other exception, or bytes. -/
inductive FetchOutcome where
  | notImplemented (msg : String)
  | fetchFailed (msg : String)
  | fetched (nbytes : ℕ)
deriving Repr, DecidableEq

/-- Outcome of one `get_video_metadata` call: metadata, or a raised error. -/
inductive ProbeOutcome where
  | probed (m : Metadata)
  | probeError (msg : String)
deriving Repr, DecidableEq

/-- Outcome of one `transform_video_with_ffmpeg` call: success, or a raised
error (tool missing, non-zero exit, timeout, or over-limit output size). -/
inductive TransformOutcome where
  | transformed
  | transformError (msg : String)
deriving Repr, DecidableEq

/-- The outcomes of the external calls one orchestrator run can make, in
order; the run may stop before consuming them all. -/
structure Env where
  fetch : FetchOutcome
  firstProbe : ProbeOutcome
  transformRun : TransformOutcome
  secondProbe : ProbeOutcome
deriving Repr, DecidableEq

/-- The two temp files a run can create (`tempfile.NamedTemporaryFile`). -/
inductive TempFile where
  | input
  | output
deriving Repr, DecidableEq

/-- An `HTTPException(status_code, detail)`. -/
structure HTTPErrorInfo where
  statusCode : ℕ
  detail : String
deriving Repr, DecidableEq

instance {ε α : Type} [DecidableEq ε] [DecidableEq α] :
    DecidableEq (Except ε α) := fun
  | .error a, .error b =>
    match decEq a b with
    | isTrue h => isTrue (by rw [h])
    | isFalse h => isFalse (fun hh => h (by cases hh; rfl))
  | .error _, .ok _ => isFalse (fun hh => by cases hh)
  | .ok _, .error _ => isFalse (fun hh => by cases hh)
  | .ok a, .ok b =>
    match decEq a b with
    | isTrue h => isTrue (by rw [h])
    | isFalse h => isFalse (fun hh => h (by cases hh; rfl))

/-- What one run of `process_and_validate_video` leaves behind: the raised
error or returned path, the temp files created during the run and never
deleted, and whether the transform executor was invoked. -/
structure RunResult where
  outcome : Except HTTPErrorInfo TempFile
  surviving : List TempFile
  transformInvoked : Bool
deriving Repr, DecidableEq

/-- Issue kinds whose presence makes the orchestrator compute a target
resolution (line 538-542). -/
def isResizeKind (t : String) : Bool :=
  t == "resolution_too_low" || t == "resolution_too_high"
    || t == "invalid_aspect_ratio"

/-- The orchestrator `process_and_validate_video` (lines 455-618), as a
function of the outcomes of its external calls.  File bookkeeping follows the
source exactly: the input temp is created after a successful fetch, the
output temp just before the transform runs; `input_path.unlink()` sites and
the generic `except` handler (which deletes whatever `input_path` then
points to, and nothing else) decide `surviving`. -/
def process_and_validate_video (env : Env) : RunResult :=
  match env.fetch with
  | .notImplemented msg => ⟨.error ⟨501, msg⟩, [], false⟩
  | .fetchFailed msg =>
      ⟨.error ⟨500, "Failed to fetch video: " ++ msg⟩, [], false⟩
  | .fetched _ =>
    match env.firstProbe with
    | .probeError msg =>
        ⟨.error ⟨500, "Video processing failed: " ++ msg⟩, [], false⟩
    | .probed metadata =>
      let validation := validate_video_requirements metadata
      let unfixable := validation.issues.filter (fun i => !i.fixable)
      if unfixable.length != 0 then
        ⟨.error ⟨400, "Video has unfixable issues: " ++
          String.intercalate ("; ") (unfixable.map (fun i => i.message))⟩,
          [], false⟩
      else if validation.compliant then
        ⟨.ok .input, [.input], false⟩
      else
        let needs_resize := validation.issues.any (fun i => isResizeKind i.type)
        let targetRes : Except String (Option (ℕ × ℕ)) :=
          if needs_resize then
            match VALID_ASPECT_RATIOS.lookup metadata.aspect_ratio with
            | some (ratio_w, ratio_h) => .ok (some (scaleTargetRaw ratio_w ratio_h))
            | none =>
              match find_closest_aspect_ratio metadata.width metadata.height with
              | some (_, tw, th) => .ok (some (tw, th))
              | none => .error ("division by zero")
          else .ok none
        match targetRes with
        | .error msg =>
            ⟨.error ⟨500, "Video processing failed: " ++ msg⟩, [], false⟩
        | .ok tres =>
          let _plan : Transformations :=
            ⟨tres, none,
              if metadata.duration > MAX_DURATION then some 7200 else none, none⟩
          match env.transformRun with
          | .transformError msg =>
              ⟨.error ⟨500, "Video processing failed: " ++ msg⟩, [.output], true⟩
          | .transformed =>
            match env.secondProbe with
            | .probeError msg =>
                ⟨.error ⟨500, "Video processing failed: " ++ msg⟩, [], true⟩
            | .probed new_metadata =>
              let new_validation := validate_video_requirements new_metadata
              if new_validation.compliant then ⟨.ok .output, [.output], true⟩
              else
                ⟨.error ⟨500, "Video still non-compliant after transformation: " ++
                  String.intercalate ("; ")
                    (new_validation.issues.map (fun i => i.message))⟩,
                  [], true⟩

/-- The fixed check order of the validator, as the spec lists it. -/
def KIND_ORDER : List String :=
  ["resolution_too_low", "resolution_too_high", "invalid_aspect_ratio",
   "duration_too_short", "duration_too_long", "file_too_large"]

/-- Whether the check of a given kind fails on `m`: the six policy
comparisons of the spec, one per kind in `KIND_ORDER`. -/
def checkFails (m : Metadata) (k : String) : Bool :=
  if k = "resolution_too_low" then
    m.width < MIN_RESOLUTION.1 || m.height < MIN_RESOLUTION.2
  else if k = "resolution_too_high" then
    m.width > MAX_RESOLUTION.1 || m.height > MAX_RESOLUTION.2
  else if k = "invalid_aspect_ratio" then !isValidAspect m.aspect_ratio
  else if k = "duration_too_short" then m.duration < MIN_DURATION
  else if k = "duration_too_long" then m.duration > MAX_DURATION
  else if k = "file_too_large" then m.file_size > MAX_FILE_SIZE
  else false

/-- The fixability the spec assigns per kind: `duration_too_short` and
`file_too_large` unfixable, the rest fixable. -/
def kindFixable (k : String) : Bool :=
  if k = "duration_too_short" then false
  else if k = "file_too_large" then false
  else true

/-- The fixed target each allowed ratio label resolves to (claim C10's
enumeration, checked against `scaleTargetRaw`). -/
def LABEL_TARGETS : List (String × ℕ × ℕ) :=
  [("1:1", 360, 360), ("4:3", 480, 360), ("4:5", 360, 450), ("5:4", 450, 360),
   ("16:9", 640, 360), ("9:16", 360, 640), ("17:9", 680, 360)]

end Towa

namespace Towa

theorem append_singleton_ite {α : Type} (c : Prop) [Decidable c] (l : List α)
    (x : α) : (if c then l ++ [x] else l) = l ++ (if c then [x] else []) := by
  split <;> simp

theorem validate_types_eq_filter (m : Metadata) :
    ((validate_video_requirements m).issues.map (fun i => i.type))
      = KIND_ORDER.filter (checkFails m) := by
  have e1 : checkFails m "resolution_too_low"
      = (m.width < MIN_RESOLUTION.1 || m.height < MIN_RESOLUTION.2) := rfl
  have e2 : checkFails m "resolution_too_high"
      = (m.width > MAX_RESOLUTION.1 || m.height > MAX_RESOLUTION.2) := rfl
  have e3 : checkFails m "invalid_aspect_ratio"
      = !isValidAspect m.aspect_ratio := rfl
  have e4 : checkFails m "duration_too_short"
      = decide (m.duration < MIN_DURATION) := rfl
  have e5 : checkFails m "duration_too_long"
      = decide (m.duration > MAX_DURATION) := rfl
  have e6 : checkFails m "file_too_large"
      = decide (m.file_size > MAX_FILE_SIZE) := rfl
  simp only [validate_video_requirements, append_singleton_ite, List.map_append,
    apply_ite (List.map (fun i : ComplianceIssue => i.type)), List.map_cons,
    List.map_nil, List.nil_append, KIND_ORDER, List.filter_cons, List.filter_nil,
    e1, e2, e3, e4, e5, e6, Bool.or_eq_true, decide_eq_true_eq]
  split_ifs <;> rfl

/-- C5: `validate_video_requirements` is a pure function of its metadata
argument (it is a Lean function), and its issues list is exactly the fixed
check order `KIND_ORDER` filtered to the failing checks — so each kind is
present iff its check fails, in fixed order, with no other kinds and no
duplicates. -/
theorem c5_validator_order (m : Metadata) :
    ((validate_video_requirements m).issues.map (fun i => i.type))
        = KIND_ORDER.filter (checkFails m)
      ∧ ((validate_video_requirements m).issues.map (fun i => i.type)).Nodup := by
  refine ⟨validate_types_eq_filter m, ?_⟩
  rw [validate_types_eq_filter m]
  exact List.Nodup.filter _ (by decide)

theorem mem_ite_singleton {α : Type} {c : Prop} [Decidable c] {x a : α} :
    (a ∈ (if c then [x] else [])) ↔ c ∧ a = x := by
  split <;> simp_all

theorem validate_fixable_by_kind (m : Metadata) (i : ComplianceIssue)
    (hi : i ∈ (validate_video_requirements m).issues) :
    i.fixable = kindFixable i.type := by
  simp only [validate_video_requirements, append_singleton_ite,
    List.nil_append, List.mem_append, mem_ite_singleton] at hi
  rcases hi with ((((⟨_, rfl⟩ | ⟨_, rfl⟩) | ⟨_, rfl⟩) | ⟨_, rfl⟩) | ⟨_, rfl⟩)
    | ⟨_, rfl⟩ <;> rfl

/-- C6: every issue `validate_video_requirements` emits carries the fixable
flag determined by its kind alone: `duration_too_short` and `file_too_large`
are unfixable, the four other kinds fixable. -/
theorem c6_fixability_by_kind (m : Metadata) (i : ComplianceIssue)
    (hi : i ∈ (validate_video_requirements m).issues) :
    i.fixable = kindFixable i.type :=
  validate_fixable_by_kind m i hi

theorem validate_compliant_iff (m : Metadata) :
    (validate_video_requirements m).compliant = true
      ↔ (validate_video_requirements m).issues = [] := by
  have h : (validate_video_requirements m).compliant
      = ((validate_video_requirements m).issues.length == 0) := rfl
  rw [h]
  simp [List.length_eq_zero]

theorem validate_mem_type_iff (m : Metadata) (k : String) :
    (k ∈ (validate_video_requirements m).issues.map (fun i => i.type))
      ↔ (k ∈ KIND_ORDER ∧ checkFails m k = true) := by
  rw [validate_types_eq_filter]
  simp [List.mem_filter]

theorem validate_no_unfixable (m : Metadata)
    (hd : ¬(m.duration < MIN_DURATION)) (hs : ¬(m.file_size > MAX_FILE_SIZE)) :
    (validate_video_requirements m).issues.filter (fun i => !i.fixable)
      = [] := by
  rw [List.filter_eq_nil_iff]
  intro i hi
  have hfix := validate_fixable_by_kind m i hi
  have htype : i.type ∈ KIND_ORDER ∧ checkFails m i.type = true :=
    (validate_mem_type_iff m i.type).mp (List.mem_map_of_mem _ hi)
  obtain ⟨h1, h2⟩ := htype
  simp only [KIND_ORDER, List.mem_cons, List.mem_singleton,
    List.not_mem_nil, or_false] at h1
  rcases h1 with h | h | h | h | h | h
  all_goals rw [hfix, h]
  · simp [kindFixable]
  · simp [kindFixable]
  · simp [kindFixable]
  · rw [h] at h2
    rw [show checkFails m "duration_too_short"
        = decide (m.duration < MIN_DURATION) from rfl] at h2
    exact absurd (of_decide_eq_true h2) hd
  · simp [kindFixable]
  · rw [h] at h2
    rw [show checkFails m "file_too_large"
        = decide (m.file_size > MAX_FILE_SIZE) from rfl] at h2
    exact absurd (of_decide_eq_true h2) hs

/-- C6 witness: the fixability equation holds of the issue emitted for a
concrete 200x200, 2-second metadata value. -/
theorem c6_fixability_by_kind_witness :
    (⟨"duration_too_short", "Duration 2 below minimum 4s", false⟩ :
        ComplianceIssue).fixable
      = kindFixable "duration_too_short" :=
  c6_fixability_by_kind ⟨200, 200, 2, 1000, "h264", "aac", "1:1"⟩
    ⟨"duration_too_short", "Duration 2 below minimum 4s", false⟩ (by decide)

/-- C8: the minimum-duration check is strict less-than: a duration of exactly
4 seconds emits no `duration_too_short` issue, while any duration strictly
below 4 does. -/
theorem c8_min_duration_strict :
    (∀ m : Metadata, m.duration = 4 →
        "duration_too_short" ∉
          ((validate_video_requirements m).issues.map (fun i => i.type)))
      ∧ (∀ m : Metadata, m.duration < 4 →
        "duration_too_short" ∈
          ((validate_video_requirements m).issues.map (fun i => i.type))) := by
  constructor
  · intro m hd
    rw [validate_types_eq_filter m]
    intro hmem
    have := (List.mem_filter.mp hmem).2
    rw [show checkFails m "duration_too_short"
        = decide (m.duration < MIN_DURATION) from rfl, hd] at this
    exact absurd (of_decide_eq_true this) (by norm_num [MIN_DURATION])
  · intro m hd
    rw [validate_types_eq_filter m]
    refine List.mem_filter.mpr ⟨by decide, ?_⟩
    rw [show checkFails m "duration_too_short"
        = decide (m.duration < MIN_DURATION) from rfl]
    exact decide_eq_true hd

/-- C8 witness: at duration exactly 4 the issue is absent, at duration 7/2 it
is present, on concrete metadata. -/
theorem c8_min_duration_strict_witness :
    ("duration_too_short" ∉
        ((validate_video_requirements
          ⟨1920, 1080, 4, 1000, "h264", "aac", "16:9"⟩).issues.map
            (fun i => i.type)))
      ∧ ("duration_too_short" ∈
        ((validate_video_requirements
          ⟨1920, 1080, 7 / 2, 1000, "h264", "aac", "16:9"⟩).issues.map
            (fun i => i.type))) :=
  ⟨c8_min_duration_strict.1 ⟨1920, 1080, 4, 1000, "h264", "aac", "16:9"⟩ rfl,
   c8_min_duration_strict.2 ⟨1920, 1080, 7 / 2, 1000, "h264", "aac", "16:9"⟩
     (by norm_num)⟩

theorem bestStep_acc_some (c : ℚ) (p : (String × ℕ × ℕ) × ℚ)
    (x : String × ℕ × ℕ) : ∃ q, bestStep c (some p) x = some q := by
  rcases p with ⟨b, bd⟩
  unfold bestStep
  dsimp only
  split
  · exact ⟨_, rfl⟩
  · exact ⟨_, rfl⟩

theorem foldl_bestStep_some (c : ℚ) (l : List (String × ℕ × ℕ)) :
    ∀ p, ∃ q, l.foldl (bestStep c) (some p) = some q := by
  induction l with
  | nil => exact fun p => ⟨p, rfl⟩
  | cons x xs ih =>
    intro p
    obtain ⟨q, hq⟩ := bestStep_acc_some c p x
    simpa [List.foldl_cons, hq] using ih q

theorem foldl_bestStep_mem (c : ℚ) (l : List (String × ℕ × ℕ)) :
    ∀ (acc : Option ((String × ℕ × ℕ) × ℚ)) (e : String × ℕ × ℕ) (d : ℚ),
      l.foldl (bestStep c) acc = some (e, d) →
      (∃ d0, acc = some (e, d0)) ∨ e ∈ l := by
  induction l with
  | nil => exact fun acc e d hf => .inl ⟨d, hf⟩
  | cons x xs ih =>
    intro acc e d hf
    rcases ih (bestStep c acc x) e d hf with ⟨d0, hacc⟩ | hmem
    · rcases acc with _ | ⟨b, bd⟩
      · unfold bestStep at hacc
        dsimp only at hacc
        cases hacc
        exact .inr (List.mem_cons_self x xs)
      · unfold bestStep at hacc
        dsimp only at hacc
        split at hacc
        · cases hacc
          exact .inr (List.mem_cons_self x xs)
        · cases hacc
          exact .inl ⟨_, rfl⟩
    · exact .inr (List.mem_cons_of_mem x hmem)

/-- Every successful return of `find_closest_aspect_ratio` is one of the
seven fixed label-target triples. -/
theorem find_some_mem_labelTargets (w h : ℕ) (l : String) (tw th : ℕ)
    (hf : find_closest_aspect_ratio w h = some (l, tw, th)) :
    (l, tw, th) ∈ LABEL_TARGETS := by
  unfold find_closest_aspect_ratio at hf
  by_cases h0 : h = 0
  · simp [h0] at hf
  · rw [if_neg h0] at hf
    rcases hfold : VALID_ASPECT_RATIOS.foldl
        (bestStep ((w : ℚ) / (h : ℚ))) none with _ | ⟨e, d⟩
    · rw [hfold] at hf
      cases hf
    · rw [hfold] at hf
      have hmem : e ∈ VALID_ASPECT_RATIOS := by
        rcases foldl_bestStep_mem _ _ _ _ _ hfold with ⟨d0, hacc⟩ | hm
        · cases hacc
        · exact hm
      have hall : ∀ e ∈ VALID_ASPECT_RATIOS,
          (e.1, evenDown (scaleTargetRaw e.2.1 e.2.2).1,
            evenDown (scaleTargetRaw e.2.1 e.2.2).2) ∈ LABEL_TARGETS := by decide
      have := hall e hmem
      cases hf
      exact this

theorem foldl_bestStep_cons_some (c : ℚ) (x : String × ℕ × ℕ)
    (xs : List (String × ℕ × ℕ)) :
    ∃ q, ((x :: xs).foldl (bestStep c) none) = some q := by
  have h1 : bestStep c none x
      = some (x, qabs (c - ((x.2.1 : ℚ) / (x.2.2 : ℚ)))) := rfl
  simpa [List.foldl_cons, h1] using foldl_bestStep_some c xs _

/-- C2: on every positive input the resolver returns a target that is in the
chosen allowed ratio exactly (`tw * d = th * n`), has both dimensions at
least 360, lies within 3840x2160, and has both dimensions even. -/
theorem c2_closest_ratio_target_within_policy (w h : ℕ) (_hw : 0 < w)
    (hh : 0 < h) :
    ∃ label tw th, find_closest_aspect_ratio w h = some (label, tw, th)
      ∧ (∃ n d, (label, n, d) ∈ VALID_ASPECT_RATIOS ∧ tw * d = th * n)
      ∧ 360 ≤ tw ∧ 360 ≤ th ∧ tw ≤ 3840 ∧ th ≤ 2160
      ∧ tw % 2 = 0 ∧ th % 2 = 0 := by
  have h0 : h ≠ 0 := Nat.pos_iff_ne_zero.mp hh
  obtain ⟨q, hq⟩ := foldl_bestStep_cons_some ((w : ℚ) / (h : ℚ)) ("1:1", 1, 1)
    [("4:3", 4, 3), ("4:5", 4, 5), ("5:4", 5, 4),
     ("16:9", 16, 9), ("9:16", 9, 16), ("17:9", 17, 9)]
  have hq' : VALID_ASPECT_RATIOS.foldl
      (bestStep ((w : ℚ) / (h : ℚ))) none = some q := hq
  rcases q with ⟨e, d⟩
  have hmem : e ∈ VALID_ASPECT_RATIOS := by
    rcases foldl_bestStep_mem _ _ _ _ _ hq' with ⟨d0, hacc⟩ | hm
    · cases hacc
    · exact hm
  have hall : ∀ e ∈ VALID_ASPECT_RATIOS,
      (evenDown (scaleTargetRaw e.2.1 e.2.2).1) * e.2.2
          = (evenDown (scaleTargetRaw e.2.1 e.2.2).2) * e.2.1
        ∧ 360 ≤ evenDown (scaleTargetRaw e.2.1 e.2.2).1
        ∧ 360 ≤ evenDown (scaleTargetRaw e.2.1 e.2.2).2
        ∧ evenDown (scaleTargetRaw e.2.1 e.2.2).1 ≤ 3840
        ∧ evenDown (scaleTargetRaw e.2.1 e.2.2).2 ≤ 2160
        ∧ evenDown (scaleTargetRaw e.2.1 e.2.2).1 % 2 = 0
        ∧ evenDown (scaleTargetRaw e.2.1 e.2.2).2 % 2 = 0 := by decide
  obtain ⟨hr, h360w, h360h, hmaxw, hmaxh, hevw, hevh⟩ := hall e hmem
  refine ⟨e.1, evenDown (scaleTargetRaw e.2.1 e.2.2).1,
    evenDown (scaleTargetRaw e.2.1 e.2.2).2, ?_,
    ⟨e.2.1, e.2.2, by simpa using hmem, hr⟩,
    h360w, h360h, hmaxw, hmaxh, hevw, hevh⟩
  unfold find_closest_aspect_ratio
  rw [if_neg h0, hq']

/-- C2 witness: the resolver's guarantee instantiated at 1920x1080. -/
theorem c2_closest_ratio_target_within_policy_witness :
    ∃ label tw th, find_closest_aspect_ratio 1920 1080 = some (label, tw, th)
      ∧ (∃ n d, (label, n, d) ∈ VALID_ASPECT_RATIOS ∧ tw * d = th * n)
      ∧ 360 ≤ tw ∧ 360 ≤ th ∧ tw ≤ 3840 ∧ th ≤ 2160
      ∧ tw % 2 = 0 ∧ th % 2 = 0 :=
  c2_closest_ratio_target_within_policy 1920 1080 (by decide) (by decide)

/-- C10: the returned target depends only on the winning ratio label — two
inputs resolving to the same label get identical targets — and each label
maps to its fixed target from `LABEL_TARGETS` (1:1 to 360x360, 4:3 to
480x360, 4:5 to 360x450, 5:4 to 450x360, 16:9 to 640x360, 9:16 to 360x640,
17:9 to 680x360). -/
theorem c10_target_depends_only_on_label :
    (∀ w1 h1 w2 h2 : ℕ, ∀ l : String, ∀ t1 t2 : ℕ × ℕ,
        find_closest_aspect_ratio w1 h1 = some (l, t1) →
        find_closest_aspect_ratio w2 h2 = some (l, t2) → t1 = t2)
      ∧ (∀ w h : ℕ, ∀ l : String, ∀ tw th : ℕ,
        find_closest_aspect_ratio w h = some (l, tw, th) →
        (l, tw, th) ∈ LABEL_TARGETS) := by
  have uniq : ∀ p ∈ LABEL_TARGETS, ∀ q ∈ LABEL_TARGETS,
      p.1 = q.1 → p = q := by decide
  constructor
  · intro w1 h1 w2 h2 l t1 t2 h1f h2f
    rcases t1 with ⟨tw1, th1⟩
    rcases t2 with ⟨tw2, th2⟩
    have m1 := find_some_mem_labelTargets _ _ _ _ _ h1f
    have m2 := find_some_mem_labelTargets _ _ _ _ _ h2f
    have heq := uniq _ m1 _ m2 rfl
    simpa [Prod.ext_iff] using heq
  · exact fun w h l tw th hf => find_some_mem_labelTargets _ _ _ _ _ hf

/-- C10 witness: 100x200 and 300x600 both resolve to 9:16 and get the same
fixed 360x640 target, which is the label's entry in the table. -/
theorem c10_target_depends_only_on_label_witness :
    (((360, 640) : ℕ × ℕ) = (360, 640))
      ∧ ("9:16", 360, 640) ∈ LABEL_TARGETS :=
  ⟨c10_target_depends_only_on_label.1 100 200 300 600 "9:16" (360, 640)
      (360, 640) (by decide) (by decide),
   c10_target_depends_only_on_label.2 100 200 "9:16" 360 640 (by decide)⟩

/-- C3 counterexample: a transformations dict carrying only
`target_aspect_ratio` (no `target_resolution`) still makes the builder
append the `-vf` filter, refuting "appends the filter iff the plan's target
resolution is set; no other plan field influences these arguments". -/
theorem c3_aspect_only_still_appends_filter :
    ((⟨none, some "16:9", none, none⟩ : Transformations).target_resolution
        = none)
      ∧ "-vf" ∈ build_ffmpeg_cmd "in.mp4" "out.mp4"
          ⟨none, some "16:9", none, none⟩ := by
  exact ⟨rfl, by decide⟩

/-- C3 amended: the built command is the fixed codec arguments, then a trim
segment holding `-t <maxDuration>` iff `max_duration` is set, then a filter
segment holding `-vf` iff `target_resolution` or `target_aspect_ratio` is
set (the scale-then-pad filter, at the target resolution when that is set),
then the output path; `re_encode` influences nothing. -/
theorem c3_cmd_flag_characterization (i o : String) (t : Transformations) :
    ∃ tseg vseg,
      build_ffmpeg_cmd i o t
          = ["ffmpeg", "-i", i, "-y", "-c:v", "libx264", "-preset", "medium",
             "-crf", "23", "-c:a", "aac", "-b:a", "128k"] ++ tseg ++ vseg ++ [o]
        ∧ (("-t" ∈ tseg) ↔ t.max_duration.isSome = true)
        ∧ (∀ dur : ℕ, t.max_duration = some dur → tseg = ["-t", toString dur])
        ∧ (("-vf" ∈ vseg) ↔ (t.target_resolution.isSome = true
            ∨ t.target_aspect_ratio.isSome = true))
        ∧ (∀ tw th : ℕ, t.target_resolution = some (tw, th) →
            vseg = ["-vf",
              "scale=" ++ toString tw ++ ":" ++ toString th ++
                  ":force_original_aspect_ratio=decrease" ++ "," ++
                ("pad=" ++ toString tw ++ ":" ++ toString th ++
                  ":(ow-iw)/2:(oh-ih)/2:black")]) := by
  rcases t with ⟨tres, tasp, tdur, tre⟩
  rcases tdur with _ | dur <;> rcases tres with _ | ⟨tw, th⟩ <;>
    rcases tasp with _ | asp
  · exact ⟨[], [], rfl, by simp, by simp, by simp, by simp⟩
  · exact ⟨[], ["-vf",
      "scale=" ++ toString 1920 ++ ":" ++ toString 1080 ++
          ":force_original_aspect_ratio=decrease" ++ "," ++
        ("pad=" ++ toString 1920 ++ ":" ++ toString 1080 ++
          ":(ow-iw)/2:(oh-ih)/2:black")], rfl, by simp, by simp, by simp,
      by simp⟩
  · exact ⟨[], ["-vf",
      "scale=" ++ toString tw ++ ":" ++ toString th ++
          ":force_original_aspect_ratio=decrease" ++ "," ++
        ("pad=" ++ toString tw ++ ":" ++ toString th ++
          ":(ow-iw)/2:(oh-ih)/2:black")], rfl, by simp, by simp, by simp,
      fun a b hab => by cases hab; rfl⟩
  · exact ⟨[], ["-vf",
      "scale=" ++ toString tw ++ ":" ++ toString th ++
          ":force_original_aspect_ratio=decrease" ++ "," ++
        ("pad=" ++ toString tw ++ ":" ++ toString th ++
          ":(ow-iw)/2:(oh-ih)/2:black")], rfl, by simp, by simp, by simp,
      fun a b hab => by cases hab; rfl⟩
  · exact ⟨["-t", toString dur], [], rfl, by simp,
      fun a hab => by cases hab; rfl, by simp, by simp⟩
  · exact ⟨["-t", toString dur], ["-vf",
      "scale=" ++ toString 1920 ++ ":" ++ toString 1080 ++
          ":force_original_aspect_ratio=decrease" ++ "," ++
        ("pad=" ++ toString 1920 ++ ":" ++ toString 1080 ++
          ":(ow-iw)/2:(oh-ih)/2:black")], rfl, by simp,
      fun a hab => by cases hab; rfl, by simp, by simp⟩
  · exact ⟨["-t", toString dur], ["-vf",
      "scale=" ++ toString tw ++ ":" ++ toString th ++
          ":force_original_aspect_ratio=decrease" ++ "," ++
        ("pad=" ++ toString tw ++ ":" ++ toString th ++
          ":(ow-iw)/2:(oh-ih)/2:black")], rfl, by simp,
      fun a hab => by cases hab; rfl, by simp,
      fun a b hab => by cases hab; rfl⟩
  · exact ⟨["-t", toString dur], ["-vf",
      "scale=" ++ toString tw ++ ":" ++ toString th ++
          ":force_original_aspect_ratio=decrease" ++ "," ++
        ("pad=" ++ toString tw ++ ":" ++ toString th ++
          ":(ow-iw)/2:(oh-ih)/2:black")], rfl, by simp,
      fun a hab => by cases hab; rfl, by simp,
      fun a b hab => by cases hab; rfl⟩

/-- C4: duration below 4 always yields a non-compliant validation carrying an
unfixable `duration_too_short` issue; and whenever the first validation holds
any unfixable issue, the orchestrator ends with a 400 error, no surviving
temp file, and the transform executor never invoked — whatever other fixable
issues are present. -/
theorem c4_short_duration_rejected_before_transform :
    (∀ m : Metadata, m.duration < 4 →
        (validate_video_requirements m).compliant = false
          ∧ ∃ i ∈ (validate_video_requirements m).issues,
              i.type = "duration_too_short" ∧ i.fixable = false)
      ∧ (∀ env : Env, ∀ b : ℕ, ∀ m : Metadata,
          env.fetch = .fetched b → env.firstProbe = .probed m →
          ((validate_video_requirements m).issues.any (fun i => !i.fixable))
              = true →
          ∃ detail, process_and_validate_video env
            = ⟨.error ⟨400, detail⟩, [], false⟩) := by
  constructor
  · intro m hd
    have hmem : "duration_too_short"
        ∈ (validate_video_requirements m).issues.map (fun i => i.type) :=
      (validate_mem_type_iff m _).mpr ⟨by decide, by
        rw [show checkFails m "duration_too_short"
          = decide (m.duration < MIN_DURATION) from rfl]
        exact decide_eq_true hd⟩
    obtain ⟨i, hi, hit⟩ := List.mem_map.mp hmem
    have hne : (validate_video_requirements m).issues ≠ [] :=
      List.ne_nil_of_mem hi
    constructor
    · cases hb : (validate_video_requirements m).compliant
      · rfl
      · exact absurd ((validate_compliant_iff m).mp hb) hne
    · exact ⟨i, hi, hit, by rw [validate_fixable_by_kind m i hi, hit]; rfl⟩
  · intro env b m hf hp hany
    rcases env with ⟨fetch, probe1, trans, probe2⟩
    cases hf
    cases hp
    have hne : ((validate_video_requirements m).issues.filter
        (fun i => !i.fixable)) ≠ [] := by
      obtain ⟨x, hx, hpx⟩ := List.any_eq_true.mp hany
      exact List.ne_nil_of_mem (List.mem_filter.mpr ⟨hx, hpx⟩)
    have hlen : ((((validate_video_requirements m).issues.filter
        (fun i => !i.fixable)).length != 0) = true) := by
      simpa [bne_iff_ne, List.length_eq_zero] using hne
    refine ⟨"Video has unfixable issues: " ++ String.intercalate ("; ")
      ((((validate_video_requirements m).issues.filter
        (fun i => !i.fixable)).map (fun i => i.message))), ?_⟩
    simp only [process_and_validate_video]
    rw [if_pos hlen]

/-- C4 witness: a 2-second 200x200 video (short duration plus a fixable
resolution issue) is validated non-compliant with the unfixable issue, and
the orchestrator run on it ends in a 400 with nothing surviving. -/
theorem c4_short_duration_rejected_before_transform_witness :
    ((validate_video_requirements
        ⟨200, 200, 2, 1000, "h264", "aac", "1:1"⟩).compliant = false
      ∧ ∃ i ∈ (validate_video_requirements
          ⟨200, 200, 2, 1000, "h264", "aac", "1:1"⟩).issues,
            i.type = "duration_too_short" ∧ i.fixable = false)
      ∧ ∃ detail, process_and_validate_video
          ⟨.fetched 1000, .probed ⟨200, 200, 2, 1000, "h264", "aac", "1:1"⟩,
            .transformed, .probed ⟨200, 200, 2, 1000, "h264", "aac", "1:1"⟩⟩
          = ⟨.error ⟨400, detail⟩, [], false⟩ :=
  ⟨c4_short_duration_rejected_before_transform.1
      ⟨200, 200, 2, 1000, "h264", "aac", "1:1"⟩ (by norm_num),
   c4_short_duration_rejected_before_transform.2
      ⟨.fetched 1000, .probed ⟨200, 200, 2, 1000, "h264", "aac", "1:1"⟩,
        .transformed, .probed ⟨200, 200, 2, 1000, "h264", "aac", "1:1"⟩⟩
      1000 ⟨200, 200, 2, 1000, "h264", "aac", "1:1"⟩ rfl rfl (by decide)⟩

/-- C7: when the first validation is compliant the orchestrator returns the
unmodified input temp file without ever invoking the transform executor, and
a compliant validation is exactly `⟨true, []⟩`. -/
theorem c7_compliant_skips_transform :
    (∀ env : Env, ∀ b : ℕ, ∀ m : Metadata,
        env.fetch = .fetched b → env.firstProbe = .probed m →
        (validate_video_requirements m).compliant = true →
        process_and_validate_video env
          = ⟨.ok TempFile.input, [TempFile.input], false⟩)
      ∧ (∀ m : Metadata, (validate_video_requirements m).compliant = true →
        validate_video_requirements m = ⟨true, []⟩) := by
  constructor
  · intro env b m hf hp hc
    rcases env with ⟨fetch, probe1, trans, probe2⟩
    cases hf
    cases hp
    have hissues : (validate_video_requirements m).issues = [] :=
      (validate_compliant_iff m).mp hc
    simp only [process_and_validate_video]
    rw [hissues]
    simp [hc]
  · intro m hc
    have hissues : (validate_video_requirements m).issues = [] :=
      (validate_compliant_iff m).mp hc
    have : validate_video_requirements m
        = ⟨(validate_video_requirements m).compliant,
           (validate_video_requirements m).issues⟩ := rfl
    rw [this, hc, hissues]

/-- C7 witness: both parts at a compliant 1920x1080, 30-second metadata. -/
theorem c7_compliant_skips_transform_witness :
    (process_and_validate_video
        ⟨.fetched 1000, .probed ⟨1920, 1080, 30, 1000, "h264", "aac", "16:9"⟩,
          .transformed, .probed ⟨1920, 1080, 30, 1000, "h264", "aac", "16:9"⟩⟩
        = ⟨.ok TempFile.input, [TempFile.input], false⟩)
      ∧ validate_video_requirements
          ⟨1920, 1080, 30, 1000, "h264", "aac", "16:9"⟩ = ⟨true, []⟩ :=
  ⟨c7_compliant_skips_transform.1
      ⟨.fetched 1000, .probed ⟨1920, 1080, 30, 1000, "h264", "aac", "16:9"⟩,
        .transformed, .probed ⟨1920, 1080, 30, 1000, "h264", "aac", "16:9"⟩⟩
      1000 ⟨1920, 1080, 30, 1000, "h264", "aac", "16:9"⟩ rfl rfl (by decide),
   c7_compliant_skips_transform.2
      ⟨1920, 1080, 30, 1000, "h264", "aac", "16:9"⟩ (by decide)⟩

/-- C1 (code bug record): a run whose transform executor raises — fetch
succeeds, the 200x200 probe reports only fixable issues, the transform
fails — ends in a 500 error while the transform-output temp file survives:
the generic handler deletes only what `input_path` points to, never the
output temp, contradicting the guarantee that failure paths delete every
temp file created. -/
theorem c1_transform_failure_leaks_output_temp :
    process_and_validate_video
        ⟨.fetched 1000, .probed ⟨200, 200, 30, 1000, "h264", "aac", "1:1"⟩,
          .transformError "FFmpeg transformation failed",
          .probed ⟨200, 200, 30, 1000, "h264", "aac", "1:1"⟩⟩
      = ⟨.error ⟨500,
          "Video processing failed: FFmpeg transformation failed"⟩,
         [TempFile.output], true⟩ := by
  decide

theorem validate_not_compliant_of_mem (m : Metadata) (k : String)
    (hk : k ∈ (validate_video_requirements m).issues.map (fun i => i.type)) :
    (validate_video_requirements m).compliant = false := by
  obtain ⟨i, hi, _⟩ := List.mem_map.mp hk
  cases hb : (validate_video_requirements m).compliant
  · rfl
  · exact absurd ((validate_compliant_iff m).mp hb) (List.ne_nil_of_mem hi)

/-- C9: the resolver is not total — height 0 is the raised
`ZeroDivisionError` — and the orchestrator reaches that call: a probed
height of 0 gets aspect ratio "unknown" (a fixable `invalid_aspect_ratio`),
so a run whose metadata is otherwise free of unfixable issues ends in an
unstructured 500 error from the plan-construction step, not a policy
rejection, with the transform executor never invoked. -/
theorem c9_zero_height_division_error :
    (∀ w : ℕ, find_closest_aspect_ratio w 0 = none)
      ∧ (∀ w : ℕ, computeAspectRatio w 0 = "unknown")
      ∧ (∀ env : Env, ∀ b : ℕ, ∀ m : Metadata,
          env.fetch = .fetched b → env.firstProbe = .probed m →
          m.height = 0 → m.aspect_ratio = "unknown" →
          ¬(m.duration < MIN_DURATION) → ¬(m.file_size > MAX_FILE_SIZE) →
          process_and_validate_video env
            = ⟨.error ⟨500, "Video processing failed: division by zero"⟩,
               [], false⟩) := by
  refine ⟨fun w => rfl, fun w => by simp [computeAspectRatio], ?_⟩
  intro env b m hf hp hh ha hdur hsize
  rcases env with ⟨fetch, probe1, trans, probe2⟩
  cases hf
  cases hp
  have hfilter := validate_no_unfixable m hdur hsize
  have hmem : "resolution_too_low"
      ∈ (validate_video_requirements m).issues.map (fun i => i.type) :=
    (validate_mem_type_iff m _).mpr ⟨by decide, by
      rw [show checkFails m "resolution_too_low"
        = (m.width < MIN_RESOLUTION.1 || m.height < MIN_RESOLUTION.2)
        from rfl, hh]
      simp [MIN_RESOLUTION]⟩
  have hcompl := validate_not_compliant_of_mem m _ hmem
  have hresize : ((validate_video_requirements m).issues.any
      (fun i => isResizeKind i.type)) = true := by
    obtain ⟨i, hi, hit⟩ := List.mem_map.mp hmem
    refine List.any_eq_true.mpr ⟨i, hi, ?_⟩
    rw [hit]
    rfl
  have hlook : VALID_ASPECT_RATIOS.lookup m.aspect_ratio = none := by
    rw [ha]
    rfl
  have hfind : find_closest_aspect_ratio m.width 0 = none := rfl
  simp only [process_and_validate_video, hfilter, hcompl, hresize, hlook,
    hh, hfind, List.length_nil]
  rfl

/-- C9 witness: the three parts at width 640, and a concrete run whose
probed metadata is 640x0, 30 seconds, aspect "unknown". -/
theorem c9_zero_height_division_error_witness :
    find_closest_aspect_ratio 640 0 = none
      ∧ computeAspectRatio 640 0 = "unknown"
      ∧ process_and_validate_video
          ⟨.fetched 1000, .probed ⟨640, 0, 30, 1000, "h264", "aac", "unknown"⟩,
            .transformed,
            .probed ⟨640, 0, 30, 1000, "h264", "aac", "unknown"⟩⟩
          = ⟨.error ⟨500, "Video processing failed: division by zero"⟩,
             [], false⟩ :=
  ⟨c9_zero_height_division_error.1 640,
   c9_zero_height_division_error.2.1 640,
   c9_zero_height_division_error.2.2
      ⟨.fetched 1000, .probed ⟨640, 0, 30, 1000, "h264", "aac", "unknown"⟩,
        .transformed, .probed ⟨640, 0, 30, 1000, "h264", "aac", "unknown"⟩⟩
      1000 ⟨640, 0, 30, 1000, "h264", "aac", "unknown"⟩ rfl rfl rfl rfl
      (by norm_num [MIN_DURATION]) (by norm_num [MAX_FILE_SIZE])⟩

/-- C3 amended, witness: the characterization applied to a dict with both
`max_duration` and `target_resolution` set. -/
theorem c3_cmd_flag_characterization_witness :
    ∃ tseg vseg,
      build_ffmpeg_cmd "in.mp4" "out.mp4"
          (⟨some (640, 360), none, some 7200, none⟩ : Transformations)
          = ["ffmpeg", "-i", "in.mp4", "-y", "-c:v", "libx264", "-preset",
             "medium", "-crf", "23", "-c:a", "aac", "-b:a", "128k"]
            ++ tseg ++ vseg ++ ["out.mp4"]
        ∧ (("-t" ∈ tseg) ↔
            (some 7200 : Option ℕ).isSome = true)
        ∧ (∀ dur : ℕ, (some 7200 : Option ℕ) = some dur →
            tseg = ["-t", toString dur])
        ∧ (("-vf" ∈ vseg) ↔ ((some (640, 360) : Option (ℕ × ℕ)).isSome = true
            ∨ (none : Option String).isSome = true))
        ∧ (∀ tw th : ℕ, (some (640, 360) : Option (ℕ × ℕ)) = some (tw, th) →
            vseg = ["-vf",
              "scale=" ++ toString tw ++ ":" ++ toString th ++
                  ":force_original_aspect_ratio=decrease" ++ "," ++
                ("pad=" ++ toString tw ++ ":" ++ toString th ++
                  ":(ow-iw)/2:(oh-ih)/2:black")]) :=
  c3_cmd_flag_characterization "in.mp4" "out.mp4"
    ⟨some (640, 360), none, some 7200, none⟩

end Towa
